import Mathlib

/-!
Shallow embedding of the smart_door_system repository (Python) for checking
its natural-language specification.  Each definition is translated from the
source file named in its doc comment; theorems at the end settle the claims.
-/

namespace SmartDoor

/-! ### Fingerprint protocol driver — src/modules/fingerprint_module.py -/

/-- HEADER bytes 0xEF 0x01 (class attribute of FingerprintSensor). -/
def HEADER : List Nat := [0xEF, 0x01]

/-- ADDRESS bytes 0xFF 0xFF 0xFF 0xFF (class attribute of FingerprintSensor). -/
def ADDRESS : List Nat := [0xFF, 0xFF, 0xFF, 0xFF]

/-- Packet bytes before the checksum, as assembled in `_send_command`:
header + address + packet id 0x01 + big-endian length + (command :: data). -/
def packetBytes (command : Nat) (data : List Nat) : List Nat :=
  let packet_data := command :: data
  let length := packet_data.length + 2
  HEADER ++ ADDRESS ++ [0x01] ++ [(length / 256) % 256, length % 256] ++ packet_data

/-- checksum computed in `_send_command`: `sum(packet[6:]) & 0xFFFF`. -/
def sendCommandChecksum (command : Nat) (data : List Nat) : Nat :=
  ((packetBytes command data).drop 6).sum % 65536

/-- Modelled from the spec's words (for comparison with the code's checksum):
"checksum = sum of all bytes from the length field through the end of
payload, truncated to 16 bits". -/
def specLengthFieldChecksum (command : Nat) (data : List Nat) : Nat :=
  let packet_data := command :: data
  let length := packet_data.length + 2
  ((length / 256) % 256 + length % 256 + packet_data.sum) % 65536

/-- Argument bytes of the search command issued by `search_fingerprint`:
CharBuffer1, start (2 bytes big-endian), count (2 bytes big-endian). -/
def search_command_payload : List Nat := [0x01, 0x00, 0x00, 0x00, 0xA3]

/-- Start slot encoded in the issued search command. -/
def search_start : Nat :=
  256 * search_command_payload.getD 1 0 + search_command_payload.getD 2 0

/-- Slot count encoded in the issued search command. -/
def search_count : Nat :=
  256 * search_command_payload.getD 3 0 + search_command_payload.getD 4 0

/-- Set of slots covered by the issued search command. -/
def searchedSlots : Finset Nat := Finset.Ico search_start (search_start + search_count)

/-- Slot id decoded from a match response in `search_fingerprint`:
`fp_id = (data[0] << 8) | data[1]`. -/
def decode_match_slot (data : List Nat) : Nat :=
  256 * data.getD 0 0 + data.getD 1 0

/-- Match score decoded from a match response in `search_fingerprint`:
`match_score = (data[2] << 8) | data[3]`. -/
def decode_match_score (data : List Nat) : Nat :=
  256 * data.getD 2 0 + data.getD 3 0

/-- `_get_next_fingerprint_id`: first i in range(1, 163) not among the
assigned ids; `none` models the "Fingerprint storage full" exception. -/
def get_next_fingerprint_id (existing : List Nat) : Option Nat :=
  (List.range' 1 162).find? (fun i => !(existing.contains i))

/-! ### Face recognition — src/modules/face_recognition_module.py
The detection/encoding model and `face_recognition.face_distance` are
external capabilities (spec section 4.2); the module's own logic starts from
the list of per-cached-embedding distances, so the embedding takes each
cached entry paired with its computed distance. -/

/-- FaceStatus enum. -/
inductive FaceStatus
  | NO_FACE
  | FACE_DETECTED
  | FACE_MATCHED
  | UNKNOWN_FACE
  | MULTIPLE_FACES
  | CAMERA_ERROR
deriving DecidableEq

/-- FACE_RECOGNITION_TOLERANCE from src/config/settings.py (0.6). -/
def FACE_RECOGNITION_TOLERANCE : ℚ := 6 / 10

/-- Entry of `_known_user_data`, cached alongside `_known_encodings`. -/
structure KnownUser where
  user_id : Int
  name : String
  employee_id : String
deriving DecidableEq, Inhabited

/-- FaceResult dataclass (frame and bounding box omitted: image payloads). -/
structure FaceResult where
  status : FaceStatus
  user_id : Option Int := none
  user_name : Option String := none
  employee_id : Option String := none
  confidence : ℚ := 0
deriving DecidableEq

/-- Index of the first minimum of a list, as `np.argmin` computes it. -/
def argminIdx : List ℚ → Nat
  | [] => 0
  | [_] => 0
  | d :: rest =>
    let j := argminIdx rest
    if d ≤ rest.getD j 0 then 0 else j + 1

/-- Matching step of `process_frame` (lines 268-318): given the cached
entries paired with their distances to the query encoding, pick the argmin
distance, accept iff it is within tolerance, confidence = 1 - distance. -/
def match_known_faces (known : List (KnownUser × ℚ)) : FaceResult :=
  match known with
  | [] => { status := FaceStatus.UNKNOWN_FACE }
  | _ :: _ =>
    let ds := known.map Prod.snd
    let i := argminIdx ds
    let best := ds.getD i 0
    if best ≤ FACE_RECOGNITION_TOLERANCE then
      let u := (known.getD i default).fst
      { status := FaceStatus.FACE_MATCHED
        user_id := some u.user_id
        user_name := some u.name
        employee_id := some u.employee_id
        confidence := 1 - best }
    else
      { status := FaceStatus.UNKNOWN_FACE }

/-! ### Door controller — src/modules/door_control.py
Auto-relock timers are modelled explicitly: a `TimerWorld` records every
timer ever scheduled (id, duration) and the ids that were cancelled; an
auto-relock event can fire only for a timer that is scheduled and never
cancelled. -/

/-- DoorState enum. -/
inductive DoorState
  | LOCKED
  | UNLOCKED
  | UNLOCKING
  | LOCKING
  | ERROR
deriving DecidableEq

/-- DOOR_UNLOCK_DURATION from src/config/settings.py (5 seconds). -/
def DOOR_UNLOCK_DURATION : ℚ := 5

/-- Mutable fields of DoorController relevant to locking behaviour. -/
structure DoorControllerState where
  state : DoorState := DoorState.LOCKED
  unlock_duration : ℚ := DOOR_UNLOCK_DURATION
  last_unlock_time : Option ℚ := none
  auto_lock_timer : Option Nat := none
deriving DecidableEq

/-- Book-keeping for `threading.Timer` objects created by the controller. -/
structure TimerWorld where
  next_id : Nat := 0
  scheduled : List (Nat × ℚ) := []
  cancelled : List Nat := []
deriving DecidableEq

/-- `self._auto_lock_timer.cancel()` guarded by `if self._auto_lock_timer`. -/
def cancel_pending (c : DoorControllerState) (w : TimerWorld) : TimerWorld :=
  match c.auto_lock_timer with
  | some i => { w with cancelled := i :: w.cancelled }
  | none => w

/-- A timer that can still fire: scheduled and never cancelled. -/
def timer_active (w : TimerWorld) (i : Nat) : Prop :=
  (∃ d, (i, d) ∈ w.scheduled) ∧ i ∉ w.cancelled

/-- `duration or self.unlock_duration`, following Python falsiness: None
and 0 both fall back to the default. -/
def duration_or_default (duration : Option ℚ) (dflt : ℚ) : ℚ :=
  match duration with
  | none => dflt
  | some d => if d = 0 then dflt else d

/-- `unlock(duration, reason)`.  `actuation_ok` models whether the GPIO
write raises.  Returns (state, world, return value). -/
def door_unlock (c : DoorControllerState) (w : TimerWorld) (duration : Option ℚ)
    (now : ℚ) (actuation_ok : Bool) : DoorControllerState × TimerWorld × Bool :=
  let dur := duration_or_default duration c.unlock_duration
  let w1 := cancel_pending c w
  if actuation_ok then
    ({ c with state := DoorState.UNLOCKED
              last_unlock_time := some now
              auto_lock_timer := some w1.next_id },
     { w1 with next_id := w1.next_id + 1
               scheduled := (w1.next_id, dur) :: w1.scheduled },
     true)
  else
    ({ c with state := DoorState.ERROR }, w1, false)

/-- `lock(reason)`: cancel pending timer (clearing the reference), then
transition to LOCKED clearing `_last_unlock_time`; on actuation failure the
state becomes ERROR. -/
def door_lock (c : DoorControllerState) (w : TimerWorld) (actuation_ok : Bool) :
    DoorControllerState × TimerWorld × Bool :=
  let w1 := cancel_pending c w
  let c1 := { c with auto_lock_timer := none }
  if actuation_ok then
    ({ c1 with state := DoorState.LOCKED, last_unlock_time := none }, w1, true)
  else
    ({ c1 with state := DoorState.ERROR }, w1, false)

/-- `emergency_lock()`: cancel pending timer, then lock; on actuation
failure it only returns False, leaving `_state` untouched. -/
def door_emergency_lock (c : DoorControllerState) (w : TimerWorld)
    (actuation_ok : Bool) : DoorControllerState × TimerWorld × Bool :=
  let w1 := cancel_pending c w
  let c1 := { c with auto_lock_timer := none }
  if actuation_ok then
    ({ c1 with state := DoorState.LOCKED, last_unlock_time := none }, w1, true)
  else
    (c1, w1, false)

/-- DoorStatus dataclass (message field omitted: derived display text). -/
structure DoorStatusSnapshot where
  state : DoorState
  time_until_lock : ℚ
  last_unlock_time : Option ℚ
deriving DecidableEq

/-- Python truthiness of the `_last_unlock_time` float-or-None field. -/
def opt_time_truthy : Option ℚ → Bool
  | none => false
  | some t => decide (t ≠ 0)

/-- `get_status()`: countdown computed from the default `unlock_duration`
field, clamped at 0, and 0 outside the UNLOCKED state. -/
def get_status (c : DoorControllerState) (now : ℚ) : DoorStatusSnapshot :=
  let t := if c.state = DoorState.UNLOCKED ∧ opt_time_truthy c.last_unlock_time then
      max 0 (c.unlock_duration - (now - c.last_unlock_time.getD 0))
    else 0
  { state := c.state, time_until_lock := t, last_unlock_time := c.last_unlock_time }

/-! ### Authentication engine — src/modules/auth_engine.py
Repository lookups (`user_repo.get_by_id`) are passed in as a function;
door calls and access-log appends are collected as effect lists. -/

/-- FingerprintStatus enum (src/modules/fingerprint_module.py). -/
inductive FingerprintStatus
  | WAITING
  | SCANNING
  | CAPTURED
  | MATCHED
  | NOT_MATCHED
  | SENSOR_ERROR
  | TIMEOUT
  | NO_FINGER
  | SENSOR_DISCONNECTED
deriving DecidableEq

/-- FingerprintResult dataclass (name/employee/message fields omitted:
display-only). -/
structure FingerprintResult where
  status : FingerprintStatus
  user_id : Option Int := none
  confidence : ℚ := 0
deriving DecidableEq

/-- AuthState enum. -/
inductive AuthState
  | IDLE
  | FACE_PENDING
  | FACE_MATCHED
  | FINGERPRINT_PENDING
  | VERIFYING
  | ACCESS_GRANTED
  | ACCESS_DENIED
  | TIMEOUT
  | ERROR
deriving DecidableEq

/-- Row returned by `user_repo.get_by_id`. -/
structure UserRecord where
  id : Int
  first_name : String
  last_name : String
  is_active : Bool
deriving DecidableEq

/-- AuthSession dataclass. -/
structure AuthSession where
  state : AuthState := AuthState.IDLE
  face_result : Option FaceResult := none
  fingerprint_result : Option FingerprintResult := none
  face_user_id : Option Int := none
  fingerprint_user_id : Option Int := none
  matched_user_id : Option Int := none
  matched_user_name : Option String := none
  start_time : ℚ := 0
  end_time : Option ℚ := none
  failure_reason : Option String := none
  confidence : ℚ := 0
deriving DecidableEq

/-- Call made on the shared DoorController during a handler. -/
inductive DoorOp
  | unlockOp (duration : Option ℚ) (reason : String)
  | lockOp (reason : String)
deriving DecidableEq

/-- Record appended by `access_log.log_access`. -/
structure AccessLogEntry where
  user_id : Option Int
  event_type : String
  result : String
  face_match : Bool
  fingerprint_match : Bool
  failure_reason : Option String := none
  confidence_score : Option ℚ := none
deriving DecidableEq

/-- Outcome of one handler call: the updated session plus its effects. -/
structure AuthStepResult where
  session : AuthSession
  door_ops : List DoorOp
  access_logs : List AccessLogEntry
deriving DecidableEq

/-- AUTH_TIMEOUT from src/config/settings.py (30 seconds). -/
def AUTH_TIMEOUT : ℚ := 30

/-- `user and user.get('is_active', False)` on the lookup for an optional
user id. -/
def account_active (lookup : Int → Option UserRecord) (uid : Option Int) : Bool :=
  match uid.bind lookup with
  | some u => u.is_active
  | none => false

/-- `_grant_access(session, user)`: ACCESS_GRANTED, matched-user fields,
confidence = average of face/fingerprint confidences, door unlock with an
"Authenticated: name" reason, SUCCESS access-log record. -/
def grant_access (session : AuthSession) (user : UserRecord) (now : ℚ) :
    AuthStepResult :=
  let full_name := user.first_name ++ " " ++ user.last_name
  let conf := ((match session.face_result with
                | some f => f.confidence
                | none => 0) +
               (match session.fingerprint_result with
                | some f => f.confidence
                | none => 0)) / 2
  let s := { session with
    state := AuthState.ACCESS_GRANTED
    matched_user_id := some user.id
    matched_user_name := some full_name
    end_time := some now
    confidence := conf }
  { session := s
    door_ops := [DoorOp.unlockOp none ("Authenticated: " ++ full_name)]
    access_logs := [{ user_id := some user.id
                      event_type := "ENTRY"
                      result := "SUCCESS"
                      face_match := true
                      fingerprint_match := true
                      confidence_score := some conf }] }

/-- `_deny_access(session, reason)`: ACCESS_DENIED, defensive door lock,
DENIED access-log record with per-factor match flags. -/
def deny_access (session : AuthSession) (reason : String) (now : ℚ) :
    AuthStepResult :=
  let s := { session with
    state := AuthState.ACCESS_DENIED
    failure_reason := some reason
    end_time := some now }
  { session := s
    door_ops := [DoorOp.lockOp "Access denied"]
    access_logs := [{ user_id := s.face_user_id
                      event_type := "ENTRY"
                      result := "DENIED"
                      face_match := (match s.face_result with
                        | some f => decide (f.status = FaceStatus.FACE_MATCHED)
                        | none => false)
                      fingerprint_match := (match s.fingerprint_result with
                        | some f => decide (f.status = FingerprintStatus.MATCHED)
                        | none => false)
                      failure_reason := some reason }] }

/-- `_process_fingerprint_verification(session)` given the result of
`scan_once`: grant only on MATCHED + same user id + active account; deny on
mismatch, inactive account, NOT_MATCHED, SENSOR_ERROR; keep waiting on
TIMEOUT / NO_FINGER; statuses with no branch fall through unchanged. -/
def process_fingerprint_verification (lookup : Int → Option UserRecord)
    (session : AuthSession) (fp : FingerprintResult) (now : ℚ) : AuthStepResult :=
  match fp.status with
  | FingerprintStatus.MATCHED =>
    let s1 := { session with
      fingerprint_result := some fp
      fingerprint_user_id := fp.user_id }
    if s1.face_user_id = s1.fingerprint_user_id then
      match s1.face_user_id.bind lookup with
      | some user =>
        if user.is_active then grant_access s1 user now
        else deny_access s1 "User account is disabled" now
      | none => deny_access s1 "User account is disabled" now
    else
      deny_access s1 "Face and fingerprint belong to different users" now
  | FingerprintStatus.NOT_MATCHED =>
    deny_access { session with fingerprint_result := some fp }
      "Fingerprint not recognized" now
  | FingerprintStatus.TIMEOUT => { session := session, door_ops := [], access_logs := [] }
  | FingerprintStatus.NO_FINGER => { session := session, door_ops := [], access_logs := [] }
  | FingerprintStatus.SENSOR_ERROR => deny_access session "Fingerprint sensor error" now
  | _ => { session := session, door_ops := [], access_logs := [] }

/-- `_process_idle_state(session)` given the frame's face result: open a
session only on FACE_MATCHED with an active account; a match against an
inactive or unknown account is ignored (warning log only). -/
def process_idle_state (lookup : Int → Option UserRecord)
    (face_result : FaceResult) (session : AuthSession) (now : ℚ) : AuthStepResult :=
  if face_result.status = FaceStatus.FACE_MATCHED then
    match face_result.user_id.bind lookup with
    | some user =>
      if user.is_active then
        { session := { session with
            state := AuthState.FACE_MATCHED
            face_result := some face_result
            face_user_id := face_result.user_id
            start_time := now }
          door_ops := []
          access_logs := [] }
      else { session := session, door_ops := [], access_logs := [] }
    | none => { session := session, door_ops := [], access_logs := [] }
  else { session := session, door_ops := [], access_logs := [] }

/-- `_handle_timeout(session)`: TIMEOUT state, FAILED access-log record, no
door operation (the dwell-then-reset that follows is outside this step). -/
def handle_timeout (session : AuthSession) (now : ℚ) : AuthStepResult :=
  let s := { session with
    state := AuthState.TIMEOUT
    failure_reason := some "Authentication timeout"
    end_time := some now }
  { session := s
    door_ops := []
    access_logs := [{ user_id := s.face_user_id
                      event_type := "ENTRY"
                      result := "FAILED"
                      face_match := decide (s.face_result ≠ none)
                      fingerprint_match := false
                      failure_reason := some "Timeout" }] }

/-- States exempt from the timeout check in `_auth_loop`. -/
def terminal_states : List AuthState :=
  [AuthState.IDLE, AuthState.ACCESS_GRANTED, AuthState.ACCESS_DENIED]

/-- One iteration of the `_auth_loop` body: timeout check first, then the
state dispatch; terminal grant/deny states dwell and reset to a fresh
session. -/
def auth_loop_iteration (lookup : Int → Option UserRecord)
    (face_result : FaceResult) (fp : FingerprintResult) (session : AuthSession)
    (now auth_timeout : ℚ) : AuthStepResult :=
  if session.state ∉ terminal_states ∧ now - session.start_time > auth_timeout then
    handle_timeout session now
  else if session.state = AuthState.IDLE then
    process_idle_state lookup face_result session now
  else if session.state = AuthState.FACE_MATCHED then
    process_fingerprint_verification lookup session fp now
  else if session.state = AuthState.ACCESS_GRANTED ∨ session.state = AuthState.ACCESS_DENIED then
    { session := { start_time := now }, door_ops := [], access_logs := [] }
  else { session := session, door_ops := [], access_logs := [] }

/-- Effect of one recorded DoorOp on a controller (actuation succeeding). -/
def apply_door_op (now : ℚ) (cw : DoorControllerState × TimerWorld) :
    DoorOp → DoorControllerState × TimerWorld
  | DoorOp.unlockOp d _ =>
    ((door_unlock cw.1 cw.2 d now true).1, (door_unlock cw.1 cw.2 d now true).2.1)
  | DoorOp.lockOp _ =>
    ((door_lock cw.1 cw.2 true).1, (door_lock cw.1 cw.2 true).2.1)

/-- Effect of a recorded DoorOp list on a controller. -/
def apply_door_ops (ops : List DoorOp) (now : ℚ) (c : DoorControllerState)
    (w : TimerWorld) : DoorControllerState × TimerWorld :=
  ops.foldl (apply_door_op now) (c, w)

/-! ### Helper lemmas -/

/-- Every byte position of a list of bytes reads below 256 under `getD`. -/
theorem getD_lt_256 (l : List Nat) (h : ∀ b ∈ l, b < 256) (k : Nat) :
    l.getD k 0 < 256 := by
  by_cases hk : k < l.length
  · rw [List.getD_eq_getElem l 0 hk]
    exact h _ (List.getElem_mem hk)
  · rw [List.getD_eq_default l 0 (by omega)]
    omega

/-- Unfolding equation of `argminIdx` on a list of length at least two. -/
theorem argminIdx_cons_cons (d e : ℚ) (rest : List ℚ) :
    argminIdx (d :: e :: rest) =
      if d ≤ (e :: rest).getD (argminIdx (e :: rest)) 0 then 0
      else argminIdx (e :: rest) + 1 := rfl

/-- The entry `argminIdx` selects is a valid index. -/
theorem argminIdx_lt_length (l : List ℚ) (h : l ≠ []) : argminIdx l < l.length := by
  induction l with
  | nil => exact absurd rfl h
  | cons d rest ih =>
    cases rest with
    | nil => simp [argminIdx]
    | cons e rest' =>
      by_cases hle : d ≤ (e :: rest').getD (argminIdx (e :: rest')) 0
      · rw [argminIdx_cons_cons, if_pos hle]
        simp
      · have hlt := ih (by simp)
        rw [argminIdx_cons_cons, if_neg hle]
        simp only [List.length_cons] at hlt ⊢
        omega

/-- The entry `argminIdx` selects is a minimum of the list. -/
theorem argminIdx_le (l : List ℚ) : ∀ x ∈ l, l.getD (argminIdx l) 0 ≤ x := by
  induction l with
  | nil => simp
  | cons d rest ih =>
    cases rest with
    | nil =>
      intro x hx
      rcases List.mem_cons.mp hx with h | h
      · simp [argminIdx, h]
      · simp at h
    | cons e rest' =>
      intro x hx
      by_cases hle : d ≤ (e :: rest').getD (argminIdx (e :: rest')) 0
      · rw [argminIdx_cons_cons, if_pos hle, List.getD_cons_zero]
        rcases List.mem_cons.mp hx with h | h
        · exact le_of_eq h.symm
        · exact le_trans hle (ih x h)
      · rw [argminIdx_cons_cons, if_neg hle, List.getD_cons_succ]
        rcases List.mem_cons.mp hx with h | h
        · subst h
          exact le_of_lt (lt_of_not_le hle)
        · exact ih x h

/-! ### Claim theorems -/

/-- C2, counterexample: for command 0x01 with empty payload, `_send_command`
computes checksum 5 (it also sums the packet-identifier byte 0x01), while
the sum of bytes from the length field through the payload is 4, so the
claimed equality fails. -/
theorem c2_checksum_counterexample :
    sendCommandChecksum 0x01 [] = 5 ∧ specLengthFieldChecksum 0x01 [] = 4 ∧
    sendCommandChecksum 0x01 [] ≠ specLengthFieldChecksum 0x01 [] := by
  refine ⟨by decide, by decide, by decide⟩

/-- C2, amended: for every command byte and payload, the 16-bit checksum
appended to an outgoing sensor packet equals the sum of all bytes from the
1-byte packet-identifier field (0x01) through the end of the payload,
truncated to 16 bits — equivalently, the length-field-onward sum plus one,
truncated to 16 bits. -/
theorem c2_checksum_amended (command : Nat) (data : List Nat) :
    sendCommandChecksum command data =
      (specLengthFieldChecksum command data + 1) % 65536 := by
  simp only [sendCommandChecksum, specLengthFieldChecksum, packetBytes, HEADER, ADDRESS,
    List.cons_append, List.nil_append, List.drop_succ_cons, List.drop_zero,
    List.sum_cons, List.sum_append]
  omega

/-- C4, counterexample: the search command is issued with start slot 0 and
count 163 (bytes 0x00 0x00, 0x00 0xA3), so it covers slot 0 as well — not
exactly the slot space 1..162 — and a 4-byte match response decoding to
slot 0 yields a slot id outside 1..162. -/
theorem c4_search_range_counterexample :
    0 ∈ searchedSlots ∧ 0 ∉ Finset.Icc 1 162 ∧
    searchedSlots ≠ Finset.Icc 1 162 ∧
    decode_match_slot [0x00, 0x00, 0x00, 0x32] = 0 ∧
    decode_match_slot [0x00, 0x00, 0x00, 0x32] ∉ Finset.Icc 1 162 := by
  have h0 : 0 ∈ searchedSlots := by
    simp [searchedSlots, search_start, search_count, search_command_payload]
  have h1 : (0 : ℕ) ∉ Finset.Icc 1 162 := by decide
  refine ⟨h0, h1, fun h => h1 (h ▸ h0), by decide, by decide⟩

/-- C4, amended: every fingerprint identification request issues the search
command over slots 0..162 (start 0, count 163) — a strict superset of the
slot space 1..162 — and the slot id decoded from a match response is any
16-bit value, not validated against 1..162; only the slots assigned by this
system's own enrollment (`_get_next_fingerprint_id`) are guaranteed to lie
in 1..162. -/
theorem c4_search_range_amended (data ex : List Nat) (i : Nat)
    (hbytes : ∀ b ∈ data, b < 256)
    (hnext : get_next_fingerprint_id ex = some i) :
    searchedSlots = Finset.Ico 0 163 ∧
    Finset.Icc 1 162 ⊆ searchedSlots ∧
    decode_match_slot data < 65536 ∧
    1 ≤ i ∧ i ≤ 162 := by
  have hs : searchedSlots = Finset.Ico 0 163 := by
    simp [searchedSlots, search_start, search_count, search_command_payload]
  refine ⟨hs, ?_, ?_, ?_⟩
  · intro x hx
    rw [hs]
    simp only [Finset.mem_Icc] at hx
    simp only [Finset.mem_Ico]
    omega
  · have h0 := getD_lt_256 data hbytes 0
    have h1 := getD_lt_256 data hbytes 1
    simp only [decode_match_slot]
    omega
  · have hmem : i ∈ List.range' 1 162 :=
      List.mem_of_find?_eq_some hnext
    have := List.mem_range'.mp hmem
    omega

/-- C4, witness for the amended theorem at a concrete response and an empty
slot assignment. -/
theorem c4_search_range_amended_witness :
    searchedSlots = Finset.Ico 0 163 ∧
    Finset.Icc 1 162 ⊆ searchedSlots ∧
    decode_match_slot [0x00, 0x05, 0x00, 0x32] < 65536 ∧
    1 ≤ 1 ∧ 1 ≤ 162 :=
  c4_search_range_amended [0x00, 0x05, 0x00, 0x32] [] 1
    (by decide) (by decide)

/-- Unfolding equation of `match_known_faces` on a non-empty cache. -/
theorem match_known_faces_cons (p : KnownUser × ℚ) (rest : List (KnownUser × ℚ)) :
    match_known_faces (p :: rest) =
      if ((p :: rest).map Prod.snd).getD (argminIdx ((p :: rest).map Prod.snd)) 0 ≤
          FACE_RECOGNITION_TOLERANCE then
        { status := FaceStatus.FACE_MATCHED
          user_id := some ((p :: rest).getD (argminIdx ((p :: rest).map Prod.snd))
            default).fst.user_id
          user_name := some ((p :: rest).getD (argminIdx ((p :: rest).map Prod.snd))
            default).fst.name
          employee_id := some ((p :: rest).getD (argminIdx ((p :: rest).map Prod.snd))
            default).fst.employee_id
          confidence :=
            1 - ((p :: rest).map Prod.snd).getD (argminIdx ((p :: rest).map Prod.snd)) 0 }
      else { status := FaceStatus.UNKNOWN_FACE } := rfl

/-- C3: against every non-empty cache, `process_frame` selects a cached
entry whose distance is minimal, reports FACE_MATCHED for that identity iff
that minimal distance is at most the tolerance (whose default is 0.6) with
confidence 1 - distance, and otherwise reports UNKNOWN_FACE. -/
theorem c3_face_match (known : List (KnownUser × ℚ)) (h : known ≠ []) :
    (∀ x ∈ known.map Prod.snd,
        (known.map Prod.snd).getD (argminIdx (known.map Prod.snd)) 0 ≤ x) ∧
    ((match_known_faces known).status = FaceStatus.FACE_MATCHED ↔
        (known.map Prod.snd).getD (argminIdx (known.map Prod.snd)) 0 ≤
          FACE_RECOGNITION_TOLERANCE) ∧
    ((known.map Prod.snd).getD (argminIdx (known.map Prod.snd)) 0 ≤
          FACE_RECOGNITION_TOLERANCE →
      (match_known_faces known).user_id =
          some ((known.getD (argminIdx (known.map Prod.snd)) default).fst.user_id) ∧
      (match_known_faces known).confidence =
          1 - (known.map Prod.snd).getD (argminIdx (known.map Prod.snd)) 0) ∧
    (¬ ((known.map Prod.snd).getD (argminIdx (known.map Prod.snd)) 0 ≤
          FACE_RECOGNITION_TOLERANCE) →
      (match_known_faces known).status = FaceStatus.UNKNOWN_FACE) ∧
    FACE_RECOGNITION_TOLERANCE = 6 / 10 := by
  refine ⟨argminIdx_le _, ?_⟩
  obtain ⟨p, rest, rfl⟩ : ∃ p rest, known = p :: rest := by
    cases known with
    | nil => exact absurd rfl h
    | cons p rest => exact ⟨p, rest, rfl⟩
  rw [match_known_faces_cons]
  by_cases hb : ((p :: rest).map Prod.snd).getD (argminIdx ((p :: rest).map Prod.snd)) 0 ≤
      FACE_RECOGNITION_TOLERANCE
  · rw [if_pos hb]
    exact ⟨iff_of_true rfl hb, fun _ => ⟨rfl, rfl⟩, fun hc => absurd hb hc, rfl⟩
  · rw [if_neg hb]
    exact ⟨iff_of_false (by simp) hb, fun hc => absurd hc hb, fun _ => rfl, rfl⟩

/-- Concrete two-entry cache used by the C3 witness. -/
def c3_known : List (KnownUser × ℚ) :=
  [(⟨1, "Alice", "E1"⟩, 1 / 2), (⟨2, "Bob", "E2"⟩, 7 / 10)]

/-- C3, witness at a concrete cache with distances 0.5 and 0.7. -/
theorem c3_face_match_witness :
    c3_known ≠ [] ∧
    ((∀ x ∈ c3_known.map Prod.snd,
        (c3_known.map Prod.snd).getD (argminIdx (c3_known.map Prod.snd)) 0 ≤ x) ∧
    ((match_known_faces c3_known).status = FaceStatus.FACE_MATCHED ↔
        (c3_known.map Prod.snd).getD (argminIdx (c3_known.map Prod.snd)) 0 ≤
          FACE_RECOGNITION_TOLERANCE) ∧
    ((c3_known.map Prod.snd).getD (argminIdx (c3_known.map Prod.snd)) 0 ≤
          FACE_RECOGNITION_TOLERANCE →
      (match_known_faces c3_known).user_id =
          some ((c3_known.getD (argminIdx (c3_known.map Prod.snd)) default).fst.user_id) ∧
      (match_known_faces c3_known).confidence =
          1 - (c3_known.map Prod.snd).getD (argminIdx (c3_known.map Prod.snd)) 0) ∧
    (¬ ((c3_known.map Prod.snd).getD (argminIdx (c3_known.map Prod.snd)) 0 ≤
          FACE_RECOGNITION_TOLERANCE) →
      (match_known_faces c3_known).status = FaceStatus.UNKNOWN_FACE) ∧
    FACE_RECOGNITION_TOLERANCE = 6 / 10) :=
  ⟨by decide, c3_face_match c3_known (by decide)⟩

/-- C1: in state FACE_MATCHED, the fingerprint step grants access (state
ACCESS_GRANTED plus a DoorController.unlock call) iff the fingerprint
status is MATCHED, the fingerprint user id equals the face user id, and
the looked-up account is active; every completed scan outcome (MATCHED,
NOT_MATCHED or SENSOR_ERROR) failing that condition yields ACCESS_DENIED
(TIMEOUT / NO_FINGER keep waiting and are not completed outcomes). -/
theorem c1_grant_iff (lookup : Int → Option UserRecord) (session : AuthSession)
    (fp : FingerprintResult) (now : ℚ)
    (hstate : session.state = AuthState.FACE_MATCHED) :
    ((process_fingerprint_verification lookup session fp now).session.state =
        AuthState.ACCESS_GRANTED ↔
      (fp.status = FingerprintStatus.MATCHED ∧
       session.face_user_id = fp.user_id ∧
       account_active lookup session.face_user_id = true)) ∧
    ((process_fingerprint_verification lookup session fp now).session.state =
        AuthState.ACCESS_GRANTED →
      ∃ s, (process_fingerprint_verification lookup session fp now).door_ops =
        [DoorOp.unlockOp none s]) ∧
    (fp.status ∈ [FingerprintStatus.MATCHED, FingerprintStatus.NOT_MATCHED,
        FingerprintStatus.SENSOR_ERROR] →
      (process_fingerprint_verification lookup session fp now).session.state ≠
        AuthState.ACCESS_GRANTED →
      (process_fingerprint_verification lookup session fp now).session.state =
        AuthState.ACCESS_DENIED) := by
  rcases fp with ⟨st, uid, conf⟩
  cases st
  case MATCHED =>
    by_cases heq : session.face_user_id = uid
    · rcases uid with _ | u_id
      · simp [process_fingerprint_verification, deny_access, account_active, heq, hstate]
      · rcases hl : lookup u_id with _ | u
        · simp [process_fingerprint_verification, deny_access, account_active, heq, hl,
            hstate]
        · by_cases hact : u.is_active
          · simp [process_fingerprint_verification, grant_access, account_active, heq, hl,
              hact]
          · simp [process_fingerprint_verification, deny_access, account_active, heq, hl,
              hact, hstate]
    · simp [process_fingerprint_verification, deny_access, account_active, heq, hstate]
  all_goals simp [process_fingerprint_verification, deny_access, hstate]

/-- Lookup table for the C1 witness: user 7 is enrolled and active. -/
def c1_lookup : Int → Option UserRecord :=
  fun i => if i = 7 then some ⟨7, "Ada", "Lovelace", true⟩ else none

/-- Face result feeding the C1 witness session. -/
def c1_face_result : FaceResult :=
  { status := FaceStatus.FACE_MATCHED, user_id := some 7, confidence := 9 / 10 }

/-- Session for the C1 witness: face already matched to user 7. -/
def c1_session : AuthSession :=
  { state := AuthState.FACE_MATCHED
    face_result := some c1_face_result
    face_user_id := some 7 }

/-- Fingerprint result for the C1 witness: matched to the same user 7. -/
def c1_fp : FingerprintResult :=
  { status := FingerprintStatus.MATCHED, user_id := some 7, confidence := 4 / 5 }

/-- C1, witness at a concrete matching session, fingerprint and lookup. -/
theorem c1_grant_iff_witness :
    c1_session.state = AuthState.FACE_MATCHED ∧
    (((process_fingerprint_verification c1_lookup c1_session c1_fp 10).session.state =
        AuthState.ACCESS_GRANTED ↔
      (c1_fp.status = FingerprintStatus.MATCHED ∧
       c1_session.face_user_id = c1_fp.user_id ∧
       account_active c1_lookup c1_session.face_user_id = true)) ∧
    ((process_fingerprint_verification c1_lookup c1_session c1_fp 10).session.state =
        AuthState.ACCESS_GRANTED →
      ∃ s, (process_fingerprint_verification c1_lookup c1_session c1_fp 10).door_ops =
        [DoorOp.unlockOp none s]) ∧
    (c1_fp.status ∈ [FingerprintStatus.MATCHED, FingerprintStatus.NOT_MATCHED,
        FingerprintStatus.SENSOR_ERROR] →
      (process_fingerprint_verification c1_lookup c1_session c1_fp 10).session.state ≠
        AuthState.ACCESS_GRANTED →
      (process_fingerprint_verification c1_lookup c1_session c1_fp 10).session.state =
        AuthState.ACCESS_DENIED)) :=
  ⟨rfl, c1_grant_iff c1_lookup c1_session c1_fp 10 rfl⟩

/-- C7: when the session is in a non-terminal state and its elapsed time
exceeds the configured bound (default 30), the next loop iteration moves it
to TIMEOUT, appends exactly one FAILED access-log record, and performs no
door operation, so any door state is left untouched. -/
theorem c7_timeout (lookup : Int → Option UserRecord) (face_result : FaceResult)
    (fp : FingerprintResult) (session : AuthSession) (now auth_timeout : ℚ)
    (h1 : session.state ∉ terminal_states)
    (h2 : now - session.start_time > auth_timeout) :
    (auth_loop_iteration lookup face_result fp session now auth_timeout).session.state =
      AuthState.TIMEOUT ∧
    (auth_loop_iteration lookup face_result fp session now auth_timeout).access_logs =
      [{ user_id := session.face_user_id
         event_type := "ENTRY"
         result := "FAILED"
         face_match := decide (session.face_result ≠ none)
         fingerprint_match := false
         failure_reason := some "Timeout" }] ∧
    (auth_loop_iteration lookup face_result fp session now auth_timeout).door_ops = [] ∧
    (∀ c w, apply_door_ops
        (auth_loop_iteration lookup face_result fp session now auth_timeout).door_ops
        now c w = (c, w)) ∧
    AUTH_TIMEOUT = 30 := by
  have hcond : session.state ∉ terminal_states ∧
      now - session.start_time > auth_timeout := ⟨h1, h2⟩
  simp only [auth_loop_iteration, if_pos hcond, handle_timeout]
  refine ⟨?_, ?_, ?_, fun c w => rfl, ?_⟩ <;> trivial

/-- Session for the C7 witness: face matched at time 0, fingerprint never
resolved. -/
def c7_session : AuthSession :=
  { state := AuthState.FACE_MATCHED, face_user_id := some 3 }

/-- C7, witness: 31 seconds after start with a 30-second bound. -/
theorem c7_timeout_witness :
    (c7_session.state ∉ terminal_states ∧ (31 : ℚ) - c7_session.start_time > 30) ∧
    ((auth_loop_iteration (fun _ => none) { status := FaceStatus.NO_FACE }
        { status := FingerprintStatus.TIMEOUT } c7_session 31 30).session.state =
      AuthState.TIMEOUT ∧
    (auth_loop_iteration (fun _ => none) { status := FaceStatus.NO_FACE }
        { status := FingerprintStatus.TIMEOUT } c7_session 31 30).access_logs =
      [{ user_id := c7_session.face_user_id
         event_type := "ENTRY"
         result := "FAILED"
         face_match := decide (c7_session.face_result ≠ none)
         fingerprint_match := false
         failure_reason := some "Timeout" }] ∧
    (auth_loop_iteration (fun _ => none) { status := FaceStatus.NO_FACE }
        { status := FingerprintStatus.TIMEOUT } c7_session 31 30).door_ops = [] ∧
    (∀ c w, apply_door_ops
        (auth_loop_iteration (fun _ => none) { status := FaceStatus.NO_FACE }
          { status := FingerprintStatus.TIMEOUT } c7_session 31 30).door_ops
        31 c w = (c, w)) ∧
    AUTH_TIMEOUT = 30) :=
  ⟨⟨by decide, by norm_num [c7_session]⟩,
   c7_timeout (fun _ => none) { status := FaceStatus.NO_FACE }
     { status := FingerprintStatus.TIMEOUT } c7_session 31 30
     (by decide) (by norm_num [c7_session])⟩

/-- C8: a frame whose face result is FACE_MATCHED for an account that is
inactive (or unknown) leaves the idle session completely unchanged: no
field is set, no state transition happens, no door operation and no
access-log record is produced. -/
theorem c8_inactive_face_ignored (lookup : Int → Option UserRecord)
    (face_result : FaceResult) (session : AuthSession) (now : ℚ)
    (h0 : session.state = AuthState.IDLE)
    (h1 : face_result.status = FaceStatus.FACE_MATCHED)
    (h2 : account_active lookup face_result.user_id = false) :
    process_idle_state lookup face_result session now =
      { session := session, door_ops := [], access_logs := [] } := by
  rcases face_result with ⟨st, uid, un, emp, conf⟩
  simp only at h1 h2
  subst h1
  rcases uid with _ | u_id
  · simp [process_idle_state, account_active]
  · rcases hl : lookup u_id with _ | u
    · simp [process_idle_state, hl]
    · simp only [account_active, Option.some_bind, hl] at h2
      simp [process_idle_state, hl, h2]

/-- Lookup for the C8 witness: user 5 exists but is inactive. -/
def c8_lookup : Int → Option UserRecord :=
  fun i => if i = 5 then some ⟨5, "Bob", "Smith", false⟩ else none

/-- Face result for the C8 witness: matched to the inactive user 5. -/
def c8_face_result : FaceResult :=
  { status := FaceStatus.FACE_MATCHED, user_id := some 5, confidence := 8 / 10 }

/-- Session for the C8 witness: the fresh idle session. -/
def c8_session : AuthSession := {}

/-- C8, witness at the concrete inactive-account face match. -/
theorem c8_inactive_face_ignored_witness :
    (c8_session.state = AuthState.IDLE ∧
     c8_face_result.status = FaceStatus.FACE_MATCHED ∧
     account_active c8_lookup c8_face_result.user_id = false) ∧
    process_idle_state c8_lookup c8_face_result c8_session 12 =
      { session := c8_session, door_ops := [], access_logs := [] } :=
  ⟨⟨rfl, rfl, by decide⟩,
   c8_inactive_face_ignored c8_lookup c8_face_result c8_session 12 rfl rfl (by decide)⟩

/-! ### Door controller lemmas and claims -/

/-- `cancel_pending` does not touch the id allocator. -/
theorem cancel_pending_next_id (c : DoorControllerState) (w : TimerWorld) :
    (cancel_pending c w).next_id = w.next_id := by
  cases h : c.auto_lock_timer <;> simp [cancel_pending, h]

/-- `cancel_pending` does not touch the scheduled list. -/
theorem cancel_pending_scheduled (c : DoorControllerState) (w : TimerWorld) :
    (cancel_pending c w).scheduled = w.scheduled := by
  cases h : c.auto_lock_timer <;> simp [cancel_pending, h]

/-- `cancel_pending` only adds cancellations. -/
theorem mem_cancel_pending_of_mem (c : DoorControllerState) (w : TimerWorld)
    (x : Nat) (hx : x ∈ w.cancelled) : x ∈ (cancel_pending c w).cancelled := by
  cases h : c.auto_lock_timer <;> simp [cancel_pending, h, hx]

/-- `cancel_pending` cancels the pending timer when there is one. -/
theorem mem_cancel_pending_pending (c : DoorControllerState) (w : TimerWorld)
    (i : Nat) (hi : c.auto_lock_timer = some i) :
    i ∈ (cancel_pending c w).cancelled := by
  simp [cancel_pending, hi]

/-- The world after `lock` is the input world with the pending timer
cancelled, whether or not the actuation succeeds. -/
theorem door_lock_world (c : DoorControllerState) (w : TimerWorld) (ok : Bool) :
    (door_lock c w ok).2.1 = cancel_pending c w := by
  cases ok <;> rfl

/-- The world after `emergency_lock` is the input world with the pending
timer cancelled, whether or not the actuation succeeds. -/
theorem door_emergency_lock_world (c : DoorControllerState) (w : TimerWorld)
    (ok : Bool) : (door_emergency_lock c w ok).2.1 = cancel_pending c w := by
  cases ok <;> rfl

/-- Shape of the world after a successful `unlock`: pending cancelled, one
fresh timer scheduled. -/
theorem door_unlock_world_true (c : DoorControllerState) (w : TimerWorld)
    (d : Option ℚ) (now : ℚ) :
    (door_unlock c w d now true).2.1 =
      { cancel_pending c w with
        next_id := (cancel_pending c w).next_id + 1
        scheduled := ((cancel_pending c w).next_id,
          duration_or_default d c.unlock_duration) ::
            (cancel_pending c w).scheduled } := rfl

/-- Shape of the world after a failed `unlock`: pending cancelled, nothing
scheduled. -/
theorem door_unlock_world_false (c : DoorControllerState) (w : TimerWorld)
    (d : Option ℚ) (now : ℚ) :
    (door_unlock c w d now false).2.1 = cancel_pending c w := rfl

/-- Controller after a successful `unlock`. -/
theorem door_unlock_ctrl_true (c : DoorControllerState) (w : TimerWorld)
    (d : Option ℚ) (now : ℚ) :
    (door_unlock c w d now true).1 =
      { c with state := DoorState.UNLOCKED
               last_unlock_time := some now
               auto_lock_timer := some (cancel_pending c w).next_id } := rfl

/-- Controller after a failed `unlock`: ERROR, timer reference untouched. -/
theorem door_unlock_ctrl_false (c : DoorControllerState) (w : TimerWorld)
    (d : Option ℚ) (now : ℚ) :
    (door_unlock c w d now false).1 = { c with state := DoorState.ERROR } := rfl

/-- Invariant of every reachable controller/world pair: any timer that is
still able to fire is the currently pending one. -/
def door_inv (c : DoorControllerState) (w : TimerWorld) : Prop :=
  ∀ p ∈ w.scheduled, p.1 ∉ w.cancelled → c.auto_lock_timer = some p.1

/-- C5: every controller transition (`unlock`, `lock`, `emergency_lock`)
first cancels any pending relock timer, and each preserves the reachability
invariant `door_inv` (which the initial state satisfies vacuously);
consequently along every history, `unlock(d)` followed by `lock()` leaves
every scheduled relock timer cancelled, so no auto-relock event ever fires
afterwards — for any actuation outcomes. -/
theorem c5_relock_cancelled (c : DoorControllerState) (w : TimerWorld)
    (d : Option ℚ) (now : ℚ) (ok1 ok2 : Bool)
    (hinv : door_inv c w) :
    (∀ i, c.auto_lock_timer = some i →
      i ∈ (door_unlock c w d now ok1).2.1.cancelled ∧
      i ∈ (door_lock c w ok2).2.1.cancelled ∧
      i ∈ (door_emergency_lock c w ok2).2.1.cancelled) ∧
    door_inv (door_unlock c w d now ok1).1 (door_unlock c w d now ok1).2.1 ∧
    door_inv (door_lock c w ok2).1 (door_lock c w ok2).2.1 ∧
    door_inv (door_emergency_lock c w ok2).1 (door_emergency_lock c w ok2).2.1 ∧
    (∀ p ∈ (door_lock (door_unlock c w d now ok1).1
        (door_unlock c w d now ok1).2.1 ok2).2.1.scheduled,
      p.1 ∈ (door_lock (door_unlock c w d now ok1).1
        (door_unlock c w d now ok1).2.1 ok2).2.1.cancelled) ∧
    (∀ i, ¬ timer_active (door_lock (door_unlock c w d now ok1).1
        (door_unlock c w d now ok1).2.1 ok2).2.1 i) := by
  have hstuck : ∀ p ∈ w.scheduled, p.1 ∉ (cancel_pending c w).cancelled → False := by
    intro p hp hnc
    by_cases hc : p.1 ∈ w.cancelled
    · exact hnc (mem_cancel_pending_of_mem _ _ _ hc)
    · exact hnc (mem_cancel_pending_pending c w _ (hinv p hp hc))
  have hfirst : ∀ i, c.auto_lock_timer = some i →
      i ∈ (door_unlock c w d now ok1).2.1.cancelled ∧
      i ∈ (door_lock c w ok2).2.1.cancelled ∧
      i ∈ (door_emergency_lock c w ok2).2.1.cancelled := by
    intro i hi
    refine ⟨?_, ?_, ?_⟩
    · cases ok1
      · rw [door_unlock_world_false]
        exact mem_cancel_pending_pending c w i hi
      · rw [door_unlock_world_true]
        exact mem_cancel_pending_pending c w i hi
    · rw [door_lock_world]
      exact mem_cancel_pending_pending c w i hi
    · rw [door_emergency_lock_world]
      exact mem_cancel_pending_pending c w i hi
  have hinv_unlock : door_inv (door_unlock c w d now ok1).1
      (door_unlock c w d now ok1).2.1 := by
    cases ok1
    · rw [door_unlock_world_false, door_unlock_ctrl_false]
      intro p hp hnc
      rw [cancel_pending_scheduled] at hp
      exact (hstuck p hp hnc).elim
    · rw [door_unlock_world_true, door_unlock_ctrl_true]
      intro p hp hnc
      simp only [cancel_pending_scheduled] at hp
      rcases List.mem_cons.mp hp with hhead | htail
      · subst hhead
        rfl
      · exact (hstuck p htail hnc).elim
  have hinv_lock : door_inv (door_lock c w ok2).1 (door_lock c w ok2).2.1 := by
    rw [door_lock_world]
    intro p hp hnc
    rw [cancel_pending_scheduled] at hp
    exact (hstuck p hp hnc).elim
  have hinv_em : door_inv (door_emergency_lock c w ok2).1
      (door_emergency_lock c w ok2).2.1 := by
    rw [door_emergency_lock_world]
    intro p hp hnc
    rw [cancel_pending_scheduled] at hp
    exact (hstuck p hp hnc).elim
  have hmain : ∀ p ∈ (door_lock (door_unlock c w d now ok1).1
      (door_unlock c w d now ok1).2.1 ok2).2.1.scheduled,
      p.1 ∈ (door_lock (door_unlock c w d now ok1).1
        (door_unlock c w d now ok1).2.1 ok2).2.1.cancelled := by
    intro p hp
    rw [door_lock_world] at hp ⊢
    rw [cancel_pending_scheduled] at hp
    cases ok1
    · rw [door_unlock_world_false] at hp ⊢
      rw [cancel_pending_scheduled] at hp
      rw [door_unlock_ctrl_false]
      by_cases hc : p.1 ∈ w.cancelled
      · exact mem_cancel_pending_of_mem _ _ _ (mem_cancel_pending_of_mem _ _ _ hc)
      · have := hinv p hp hc
        exact mem_cancel_pending_of_mem _ _ _ (mem_cancel_pending_pending c w _ this)
    · rw [door_unlock_world_true] at hp ⊢
      rw [door_unlock_ctrl_true]
      simp only [cancel_pending_scheduled] at hp
      rcases List.mem_cons.mp hp with hhead | htail
      · subst hhead
        exact mem_cancel_pending_pending _ _ _ rfl
      · by_cases hc : p.1 ∈ w.cancelled
        · exact mem_cancel_pending_of_mem _ _ _
            (mem_cancel_pending_of_mem _ _ _ hc)
        · have := hinv p htail hc
          exact mem_cancel_pending_of_mem _ _ _
            (mem_cancel_pending_pending c w _ this)
  refine ⟨hfirst, hinv_unlock, hinv_lock, hinv_em, hmain, ?_⟩
  intro i hact
  rcases hact with ⟨⟨dd, hdd⟩, hnc⟩
  exact hnc (hmain (i, dd) hdd)

/-- C5, witness: from the initial controller and an empty timer world. -/
theorem c5_relock_cancelled_witness :
    door_inv {} {} ∧
    ((∀ i, ({} : DoorControllerState).auto_lock_timer = some i →
      i ∈ (door_unlock {} {} (some 4) 0 true).2.1.cancelled ∧
      i ∈ (door_lock ({} : DoorControllerState) {} true).2.1.cancelled ∧
      i ∈ (door_emergency_lock ({} : DoorControllerState) {} true).2.1.cancelled) ∧
    door_inv (door_unlock {} {} (some 4) 0 true).1
      (door_unlock {} {} (some 4) 0 true).2.1 ∧
    door_inv (door_lock ({} : DoorControllerState) {} true).1
      (door_lock ({} : DoorControllerState) {} true).2.1 ∧
    door_inv (door_emergency_lock ({} : DoorControllerState) {} true).1
      (door_emergency_lock ({} : DoorControllerState) {} true).2.1 ∧
    (∀ p ∈ (door_lock (door_unlock {} {} (some 4) 0 true).1
        (door_unlock {} {} (some 4) 0 true).2.1 true).2.1.scheduled,
      p.1 ∈ (door_lock (door_unlock {} {} (some 4) 0 true).1
        (door_unlock {} {} (some 4) 0 true).2.1 true).2.1.cancelled) ∧
    (∀ i, ¬ timer_active (door_lock (door_unlock {} {} (some 4) 0 true).1
        (door_unlock {} {} (some 4) 0 true).2.1 true).2.1 i)) :=
  ⟨by intro p hp _ ; simp at hp,
   c5_relock_cancelled {} {} (some 4) 0 true true (by intro p hp _ ; simp at hp)⟩

/-- Controller used by the C6 counterexample and witness: currently
UNLOCKED with timer 0 pending. -/
def c6_ctrl : DoorControllerState :=
  { state := DoorState.UNLOCKED, last_unlock_time := some 1, auto_lock_timer := some 0 }

/-- World used by the C6 counterexample and witness. -/
def c6_world : TimerWorld := { next_id := 1, scheduled := [(0, 5)] }

/-- C6, counterexample: calling `unlock(0)` while UNLOCKED schedules the
fresh relock for the default 5 seconds rather than the requested duration
0, because `duration or self.unlock_duration` treats 0 as falsy — so the
claim does not hold for every duration d2. -/
theorem c6_unlock_restart_counterexample :
    (door_unlock c6_ctrl c6_world (some 0) 10 true).2.1.scheduled =
      [(1, 5), (0, 5)] ∧
    ∀ p ∈ (door_unlock c6_ctrl c6_world (some 0) 10 true).2.1.scheduled,
      p.2 ≠ (0 : ℚ) := by
  exact ⟨rfl, by decide⟩

/-- C6, amended: for every nonzero duration d2, calling unlock(d2) while
the door is UNLOCKED cancels the previously pending relock timer and
schedules a fresh one-shot relock of duration d2 which becomes the new
pending timer (last unlock wins); a duration of 0 — like None — falls back
to the default unlock duration instead. -/
theorem c6_unlock_restart (c : DoorControllerState) (w : TimerWorld)
    (d2 now : ℚ) (i : Nat) (hd : d2 ≠ 0)
    (hst : c.state = DoorState.UNLOCKED) (hp : c.auto_lock_timer = some i) :
    i ∈ (door_unlock c w (some d2) now true).2.1.cancelled ∧
    (door_unlock c w (some d2) now true).1.auto_lock_timer = some w.next_id ∧
    (w.next_id, d2) ∈ (door_unlock c w (some d2) now true).2.1.scheduled ∧
    (door_unlock c w (some d2) now true).1.state = DoorState.UNLOCKED ∧
    (door_unlock c w (some d2) now true).1.last_unlock_time = some now ∧
    (door_unlock c w (some 0) now true).2.1.scheduled =
      (w.next_id, c.unlock_duration) :: w.scheduled := by
  refine ⟨?_, ?_, ?_, ?_, ?_, ?_⟩
  · rw [door_unlock_world_true]
    exact mem_cancel_pending_pending c w i hp
  · rw [door_unlock_ctrl_true, cancel_pending_next_id]
  · rw [door_unlock_world_true, cancel_pending_next_id]
    simp [duration_or_default, hd]
  · rw [door_unlock_ctrl_true]
  · rw [door_unlock_ctrl_true]
  · rw [door_unlock_world_true, cancel_pending_next_id, cancel_pending_scheduled]
    simp [duration_or_default]

/-- C6, witness: a second unlock with duration 7 while UNLOCKED. -/
theorem c6_unlock_restart_witness :
    ((7 : ℚ) ≠ 0 ∧ c6_ctrl.state = DoorState.UNLOCKED ∧
      c6_ctrl.auto_lock_timer = some 0) ∧
    (0 ∈ (door_unlock c6_ctrl c6_world (some 7) 10 true).2.1.cancelled ∧
    (door_unlock c6_ctrl c6_world (some 7) 10 true).1.auto_lock_timer =
      some c6_world.next_id ∧
    (c6_world.next_id, 7) ∈ (door_unlock c6_ctrl c6_world (some 7) 10 true).2.1.scheduled ∧
    (door_unlock c6_ctrl c6_world (some 7) 10 true).1.state = DoorState.UNLOCKED ∧
    (door_unlock c6_ctrl c6_world (some 7) 10 true).1.last_unlock_time = some 10 ∧
    (door_unlock c6_ctrl c6_world (some 0) 10 true).2.1.scheduled =
      (c6_world.next_id, c6_ctrl.unlock_duration) :: c6_world.scheduled) :=
  ⟨⟨by norm_num, rfl, rfl⟩,
   c6_unlock_restart c6_ctrl c6_world 7 10 0 (by norm_num) rfl rfl⟩

/-- Controller used by the C9 counterexample: UNLOCKED with a pending
timer, about to suffer an actuation failure. -/
def c9_ctrl : DoorControllerState :=
  { state := DoorState.UNLOCKED, last_unlock_time := some 3, auto_lock_timer := some 0 }

/-- World used by the C9 counterexample. -/
def c9_world : TimerWorld := { next_id := 1, scheduled := [(0, 5)] }

/-- C9, counterexample: on actuation failure from UNLOCKED, `lock` ends in
ERROR while `emergency_lock` leaves the state UNLOCKED, so the two do not
produce the same resulting state on failure. -/
theorem c9_emergency_lock_counterexample :
    (door_lock c9_ctrl c9_world false).1.state = DoorState.ERROR ∧
    (door_emergency_lock c9_ctrl c9_world false).1.state = DoorState.UNLOCKED ∧
    (door_lock c9_ctrl c9_world false).1 ≠
      (door_emergency_lock c9_ctrl c9_world false).1 := by
  exact ⟨rfl, rfl, by decide⟩

/-- C9, amended: `emergency_lock` has exactly the effect of `lock` whenever
actuation succeeds — both cancel any pending relock timer, clear the timer
reference, and leave the door LOCKED with `last_unlock_time` cleared; on
actuation failure both still cancel the pending timer and clear its
reference, but `lock` transitions the state to ERROR while `emergency_lock`
leaves the state field unchanged. -/
theorem c9_emergency_lock_amended (c : DoorControllerState) (w : TimerWorld) :
    door_emergency_lock c w true = door_lock c w true ∧
    (door_lock c w true).1.state = DoorState.LOCKED ∧
    (door_lock c w true).1.last_unlock_time = none ∧
    (door_lock c w true).1.auto_lock_timer = none ∧
    (door_lock c w true).2.1 = cancel_pending c w ∧
    (door_emergency_lock c w false).2.1 = cancel_pending c w ∧
    (door_lock c w false).2.1 = cancel_pending c w ∧
    (door_lock c w false).1.state = DoorState.ERROR ∧
    (door_emergency_lock c w false).1.state = c.state ∧
    (door_emergency_lock c w false).1.auto_lock_timer = none ∧
    (door_lock c w false).1.auto_lock_timer = none :=
  ⟨rfl, rfl, rfl, rfl, rfl, rfl, rfl, rfl, rfl, rfl, rfl⟩

/-- C10: `get_status` never reports a negative countdown, reports 0 in any
state other than UNLOCKED, and in UNLOCKED computes the countdown from the
controller's default `unlock_duration` (5 by default) minus the elapsed
time since the last unlock — `unlock` never stores its explicit duration
argument in `unlock_duration`, so an explicit duration does not change the
reported countdown. -/
theorem c10_time_until_lock (c : DoorControllerState) (w : TimerWorld)
    (now u : ℚ) :
    0 ≤ (get_status c now).time_until_lock ∧
    (c.state ≠ DoorState.UNLOCKED → (get_status c now).time_until_lock = 0) ∧
    (c.state = DoorState.UNLOCKED → c.last_unlock_time = some u → u ≠ 0 →
      (get_status c now).time_until_lock =
        max 0 (c.unlock_duration - (now - u))) ∧
    (∀ d ok, (door_unlock c w (some d) now ok).1.unlock_duration =
      c.unlock_duration) ∧
    DOOR_UNLOCK_DURATION = 5 := by
  refine ⟨?_, ?_, ?_, ?_, rfl⟩
  · simp only [get_status]
    split
    · exact le_max_left 0 _
    · exact le_refl 0
  · intro h
    simp [get_status, h]
  · intro hs hl hu
    simp [get_status, hs, hl, opt_time_truthy, hu]
  · intro d ok
    cases ok <;> rfl

/-- Controller used by the C10 witness: UNLOCKED since time 2. -/
def c10_ctrl : DoorControllerState :=
  { state := DoorState.UNLOCKED, last_unlock_time := some 2 }

/-- C10, witness: at time 4 the countdown is the default duration minus the
2 elapsed seconds. -/
theorem c10_time_until_lock_witness :
    (c10_ctrl.state = DoorState.UNLOCKED ∧ c10_ctrl.last_unlock_time = some 2 ∧
      (2 : ℚ) ≠ 0) ∧
    0 ≤ (get_status c10_ctrl 4).time_until_lock ∧
    (get_status c10_ctrl 4).time_until_lock =
      max 0 (c10_ctrl.unlock_duration - (4 - 2)) ∧
    (∀ d ok, (door_unlock c10_ctrl {} (some d) 4 ok).1.unlock_duration =
      c10_ctrl.unlock_duration) :=
  ⟨⟨rfl, rfl, by norm_num⟩,
   (c10_time_until_lock c10_ctrl {} 4 2).1,
   (c10_time_until_lock c10_ctrl {} 4 2).2.2.1 rfl rfl (by norm_num),
   (c10_time_until_lock c10_ctrl {} 4 2).2.2.2.1⟩

end SmartDoor
